import Mathlib

/-!
Verification of the tcmalloc core specification against the repository
sources.  Pure functions from the sources (global_stats.cc) are embedded
directly; components whose implementation files are not part of the
repository snapshot (per-CPU cache, transfer cache, page tracker, page
heap release loop, arena) are modelled from the specification text and
checked against the behaviour pinned down by the repository tests.
Machine integers are modelled as Nat with explicit reduction modulo 2^64
where the C code computes in uint64_t / size_t.
-/

namespace Tcmalloc

/-! ## uint64 arithmetic -/

/-- Modulus of 64-bit unsigned arithmetic. -/
def U64 : Nat := 2 ^ 64

/-- Largest value of size_t on the 64-bit targets the code assumes. -/
def kSizeTMax : Nat := U64 - 1

/-- Wrapping 64-bit addition. -/
def u64add (a b : Nat) : Nat := (a + b) % U64

/-- Wrapping 64-bit subtraction, for operands already reduced mod 2^64. -/
def u64subWrap (a b : Nat) : Nat := (a + U64 - b % U64) % U64

/-- Left-to-right wrapping sum, the order in which C evaluates a + b + c. -/
def u64sum (l : List Nat) : Nat := l.foldl u64add 0

/-! ## Statistics records (global_stats.cc)

The fields mirror the members of TCMallocStats / BackingStats / ArenaStats
that the derived-statistic functions read. -/

structure BackingStats where
  systemBytes : Nat
  freeBytes : Nat
  unmappedBytes : Nat
deriving DecidableEq, Repr

structure ArenaStatsR where
  bytesAllocated : Nat
  bytesUnallocated : Nat
  bytesUnavailable : Nat
  bytesNonresident : Nat
  blocks : Nat
deriving DecidableEq, Repr

structure TCMallocStats where
  centralBytes : Nat
  transferBytes : Nat
  threadBytes : Nat
  perCpuBytes : Nat
  shardedTransferBytes : Nat
  metadataBytes : Nat
  threadHeapsInUse : Nat
  pageheap : BackingStats
  arena : ArenaStatsR
deriving DecidableEq, Repr

/-- StatSub from global_stats.cc: saturating uint64 subtraction. -/
def statSub (a b : Nat) : Nat := if b ≤ a then a - b else 0

/-- InUseByApp from global_stats.cc. -/
def inUseByApp (s : TCMallocStats) : Nat :=
  statSub s.pageheap.systemBytes
    (u64sum [s.threadBytes, s.centralBytes, s.transferBytes, s.perCpuBytes,
             s.shardedTransferBytes, s.pageheap.freeBytes, s.pageheap.unmappedBytes])

/-- VirtualMemoryUsed from global_stats.cc. -/
def virtualMemoryUsed (s : TCMallocStats) : Nat :=
  u64sum [s.pageheap.systemBytes, s.metadataBytes, s.arena.bytesUnallocated,
          s.arena.bytesUnavailable, s.arena.bytesNonresident]

/-- UnmappedBytes from global_stats.cc. -/
def unmappedBytes (s : TCMallocStats) : Nat :=
  u64add s.pageheap.unmappedBytes s.arena.bytesNonresident

/-- PhysicalMemoryUsed from global_stats.cc. -/
def physicalMemoryUsed (s : TCMallocStats) : Nat :=
  statSub (virtualMemoryUsed s) (unmappedBytes s)

/-- RequiredBytes from global_stats.cc. -/
def requiredBytes (s : TCMallocStats) : Nat :=
  statSub (physicalMemoryUsed s) s.pageheap.freeBytes

/-- ExternalBytes from global_stats.cc. -/
def externalBytes (s : TCMallocStats) : Nat :=
  u64sum [s.pageheap.freeBytes, s.centralBytes, s.perCpuBytes,
          s.shardedTransferBytes, s.transferBytes, s.threadBytes,
          s.metadataBytes, s.arena.bytesUnavailable, s.arena.bytesUnallocated]

/-- HeapSizeBytes from global_stats.cc. -/
def heapSizeBytes (b : BackingStats) : Nat := statSub b.systemBytes b.unmappedBytes

/-- LocalBytes from global_stats.cc. -/
def localBytes (s : TCMallocStats) : Nat :=
  u64sum [s.threadBytes, s.perCpuBytes, s.shardedTransferBytes]

/-- SlackBytes from global_stats.cc. -/
def slackBytes (b : BackingStats) : Nat := u64add b.freeBytes b.unmappedBytes

/-- The metadata residence adjustment in ExtractStats (global_stats.cc,
report_residence branch for the pagemap):
metadata_bytes = metadata_bytes - pagemap_bytes + resident_bytes, computed
in plain uint64 arithmetic guarded only by a debug ASSERT. -/
def metadataPagemapResidenceAdjust (metadataBytes pagemapBytes residentBytes : Nat) : Nat :=
  u64add (u64subWrap metadataBytes pagemapBytes) residentBytes

/-- The metadata residence adjustment in ExtractStats (global_stats.cc,
per-CPU branch): metadata_bytes - percpu_metadata_bytes +
percpu_metadata_bytes_res, in plain uint64 arithmetic under a debug ASSERT. -/
def metadataPercpuResidenceAdjust (metadataBytes percpuBytes percpuResBytes : Nat) : Nat :=
  u64add (u64subWrap metadataBytes percpuBytes) percpuResBytes

/-! ## GetNumericProperty (global_stats.cc) -/

/-- The global allocator state read by GetNumericProperty.  The two stats
snapshots stand for the results of ExtractTCMallocStats without and with
residence reporting; the remaining fields stand for the other globals the
branches consult. -/
structure GlobalsState where
  cpuCacheActive : Bool
  snap : TCMallocStats
  snapRes : TCMallocStats
  pageAllocStats : BackingStats
  arenaNonresident : Nat
  sampledInternalFragmentation : Nat
  pageAlgorithm : Nat
  overallThreadCacheSize : Nat
  limitBytes : Nat
  limitIsHard : Bool
  findExperiment : String → Option Bool

/-- GetNumericProperty from global_stats.cc, branch for branch in source
order; some value corresponds to returning true with *value set, none to
returning false. -/
def getNumericProperty (g : GlobalsState) (name : String) : Option Nat :=
  if name == "tcmalloc.per_cpu_caches_active" then
    some (if g.cpuCacheActive then 1 else 0)
  else if name == "generic.virtual_memory_used" then
    some (virtualMemoryUsed g.snap)
  else if name == "generic.physical_memory_used" then
    some (physicalMemoryUsed g.snap)
  else if name == "generic.current_allocated_bytes" || name == "generic.bytes_in_use_by_app" then
    some (inUseByApp g.snap)
  else if name == "generic.heap_size" then
    some (heapSizeBytes g.pageAllocStats)
  else if name == "tcmalloc.central_cache_free" then
    some g.snap.centralBytes
  else if name == "tcmalloc.cpu_free" then
    some g.snap.perCpuBytes
  else if name == "tcmalloc.sharded_transfer_cache_free" then
    some g.snap.shardedTransferBytes
  else if name == "tcmalloc.slack_bytes" then
    some (slackBytes g.pageAllocStats)
  else if name == "tcmalloc.pageheap_free_bytes" || name == "tcmalloc.page_heap_free" then
    some g.pageAllocStats.freeBytes
  else if name == "tcmalloc.pageheap_unmapped_bytes" || name == "tcmalloc.page_heap_unmapped" then
    some (u64add g.pageAllocStats.unmappedBytes g.arenaNonresident)
  else if name == "tcmalloc.sampled_internal_fragmentation" then
    some g.sampledInternalFragmentation
  else if name == "tcmalloc.page_algorithm" then
    some g.pageAlgorithm
  else if name == "tcmalloc.max_total_thread_cache_bytes" then
    some g.overallThreadCacheSize
  else if name == "tcmalloc.current_total_thread_cache_bytes" || name == "tcmalloc.thread_cache_free" then
    some g.snap.threadBytes
  else if name == "tcmalloc.thread_cache_count" then
    some g.snap.threadHeapsInUse
  else if name == "tcmalloc.local_bytes" then
    some (localBytes g.snap)
  else if name == "tcmalloc.external_fragmentation_bytes" then
    some (externalBytes g.snap)
  else if name == "tcmalloc.metadata_bytes" then
    some g.snapRes.metadataBytes
  else if name == "tcmalloc.transfer_cache_free" then
    some g.snap.transferBytes
  else if name == "tcmalloc.hard_usage_limit_bytes" || name == "tcmalloc.desired_usage_limit_bytes" then
    let wantHard := name == "tcmalloc.hard_usage_limit_bytes"
    let amount := if wantHard != g.limitIsHard then kSizeTMax else g.limitBytes
    some amount
  else if name == "tcmalloc.required_bytes" then
    some (requiredBytes g.snap)
  else if name.startsWith "tcmalloc.experiment." then
    match g.findExperiment (name.drop 20) with
    | some active => some (if active then 1 else 0)
    | none => none
  else
    none

/-! ## Transfer cache (spec section 4.4)

The implementation file transfer_cache_internals.h is not part of this
repository snapshot; only transfer_cache_test.cc is.  The models below are
built from the specification text and agree with every concrete behaviour
the tests pin down (IsolatedSmoke, PushesToFreelist, FetchesFromFreelist,
Plunder). -/

/-- Modelled from the spec: classic / flexible per-class transfer cache
(transfer_cache_internals.h is missing from the snapshot).  State is the
object count, the capacity in objects, the per-class batch size, and the
variant tag. -/
structure XferCache where
  used : Nat
  capacity : Nat
  batchSize : Nat
  flexible : Bool
deriving DecidableEq, Repr

/-- Modelled from the spec: insert_range.  The classic variant accepts a
batch only when it is a full batch that fits entirely, otherwise the whole
batch goes to the central free list; the flexible variant absorbs what
fits and forwards the remainder.  Returns (new state, objects kept by the
cache, objects forwarded to the central free list). -/
def insertRange (c : XferCache) (m : Nat) : XferCache × Nat × Nat :=
  if c.flexible then
    let fits := min m (c.capacity - c.used)
    ({ c with used := c.used + fits }, fits, m - fits)
  else
    if m = c.batchSize ∧ c.used + m ≤ c.capacity then
      ({ c with used := c.used + m }, m, 0)
    else
      (c, 0, m)

/-- Modelled from the spec: remove_range.  The classic variant serves only
full-batch requests it can satisfy entirely and forwards every other
request to the central free list; the flexible variant serves a partial
batch from a non-empty cache.  Returns (new state, objects taken from the
cache, request size forwarded to the central free list). -/
def removeRange (c : XferCache) (n : Nat) : XferCache × Nat × Nat :=
  if c.flexible then
    if 0 < c.used then
      let take := min n c.used
      ({ c with used := c.used - take }, take, 0)
    else
      (c, 0, n)
  else
    if n = c.batchSize ∧ n ≤ c.used then
      ({ c with used := c.used - n }, n, 0)
    else
      (c, 0, n)

/-- Modelled from the spec: ring-buffer transfer cache state for the
plunder protocol.  lowWater is the smallest object count the cache has
reached at the end of an operation since the previous plunder. -/
structure RingTC where
  used : Nat
  capacity : Nat
  batchSize : Nat
  lowWater : Nat
deriving DecidableEq, Repr

/-- Modelled from the spec and the Plunder / b172283201 tests: InsertRange
on the ring buffer.  A full cache first returns one batch to the central
free list, then the new objects are stored; the low-water mark tracks the
end-of-operation size.  Returns (new state, objects evicted to the central
free list). -/
def RingTC.insert (c : RingTC) (m : Nat) : RingTC × Nat :=
  let evicted := if c.capacity < c.used + m then c.batchSize else 0
  let newUsed := c.used - evicted + m
  ({ c with used := newUsed, lowWater := min c.lowWater newUsed }, evicted)

/-- Modelled from the spec: RemoveRange on the ring buffer; a request the
cache can satisfy is served and the low-water mark records the resulting
size, otherwise the request is forwarded to the central free list.
Returns (new state, objects taken from the cache). -/
def RingTC.remove (c : RingTC) (n : Nat) : RingTC × Nat :=
  if n ≤ c.used then
    ({ c with used := c.used - n, lowWater := min c.lowWater (c.used - n) }, n)
  else
    ({ c with lowWater := min c.lowWater c.used }, 0)

/-- Modelled from the spec: TryPlunder returns low-water-mark many objects
to the central free list and resets the low-water mark to the size the
cache is left with.  Returns (new state, objects returned to the central
free list). -/
def RingTC.tryPlunder (c : RingTC) : RingTC × Nat :=
  let k := min c.lowWater c.used
  ({ c with used := c.used - k, lowWater := c.used - k }, k)

/-! ## Page heap release loop (spec section 4.7, page_heap.h contract)

page_heap.cc is not part of the snapshot; page_heap.h documents the
contract of ReleaseAtLeastNPages.  Free spans are modelled by their
lengths; a span is always released whole. -/

/-- Modelled from the spec: release free spans one at a time, each span
whole, until the released total reaches the target or no normal free span
remains.  Returns (pages released, spans moved to the returned list,
normal spans remaining). -/
def releaseSpans (normal : List Nat) (target : Nat) : Nat × List Nat × List Nat :=
  match normal with
  | [] => (0, [], [])
  | s :: rest =>
    if target = 0 then
      (0, [], s :: rest)
    else
      let r := releaseSpans rest (target - s)
      (s + r.1, s :: r.2.1, r.2.2)

/-- Modelled from the spec: the page heap keeps a normal (resident) and a
returned (released) free-span list; ReleaseAtLeastNPages moves spans from
normal to returned and reports the page count released. -/
structure PageHeapFreeLists where
  normal : List Nat
  returned : List Nat
deriving DecidableEq, Repr

/-- Modelled from the spec: ReleaseAtLeastNPages over the free lists. -/
def releaseAtLeastNPages (h : PageHeapFreeLists) (target : Nat) : Nat × PageHeapFreeLists :=
  let r := releaseSpans h.normal target
  (r.1, ⟨r.2.2, h.returned ++ r.2.1⟩)

/-! ## Page tracker (spec section 4.7, PageTrackerTest)

huge_page_filler.h is not part of the snapshot; the tracker is modelled
from the specification and the behaviour pinned by PageTrackerTest:
Get carves the first sufficient free run and backs it, Put frees a range,
ReleaseFree advises the OS for every maximal free not-yet-released run,
and MaybeRelease advises for a range about to be freed when the huge page
already has released pages.  The per-page allocation bitmap and released
bitmap are encoded as the bits of two natural numbers: bit i describes
page i. -/

/-- Pages per huge page in the configuration checked here (2 MiB huge
pages over 8 KiB pages). -/
def kPagesPerHugePage : Nat := 256

/-- Modelled from the spec: the per-huge-page tracker state, a page
allocation bitmap and a released bitmap (huge_page_filler.h is missing
from the snapshot). -/
structure TrackerBits where
  allocated : Nat
  released : Nat
deriving DecidableEq, Repr

/-- Bitmask of the page range starting at i of length n. -/
def rangeMask (i n : Nat) : Nat := (2 ^ n - 1) * 2 ^ i

/-- A fresh tracker: every page free and backed. -/
def freshTracker : TrackerBits := ⟨0, 0⟩

/-- First index at or after i whose run of n pages is entirely free,
searched with explicit fuel. -/
def firstFitFrom (alloc n : Nat) : Nat → Nat → Option Nat
  | _, 0 => none
  | i, fuel + 1 =>
    if i + n ≤ kPagesPerHugePage ∧ alloc &&& rangeMask i n = 0 then some i
    else firstFitFrom alloc n (i + 1) fuel

/-- Modelled from the spec: PageTracker Get.  First fit; the carved pages
become allocated and backed.  Returns the first page index and the new
tracker, or none when no run of n free pages exists. -/
def trackerGet (t : TrackerBits) (n : Nat) : Option (Nat × TrackerBits) :=
  (firstFitFrom t.allocated n 0 (kPagesPerHugePage + 1)).map
    (fun i => (i, ⟨t.allocated ||| rangeMask i n,
                   t.released - (t.released &&& rangeMask i n)⟩))

/-- Modelled from the spec: PageTracker Put frees the range; the released
status of the pages is unchanged. -/
def trackerPut (t : TrackerBits) (i n : Nat) : TrackerBits :=
  ⟨t.allocated - (t.allocated &&& rangeMask i n), t.released⟩

/-- Maximal runs, as (start, length) pairs, of free not-yet-released
pages, scanning pages i and up with explicit fuel; the accumulator
carries the run currently open. -/
def advisableRunsGo (alloc rel : Nat) : Nat → Nat → Option (Nat × Nat) → List (Nat × Nat)
  | _, 0, none => []
  | _, 0, some r => [r]
  | i, fuel + 1, acc =>
    if !alloc.testBit i && !rel.testBit i then
      match acc with
      | none => advisableRunsGo alloc rel (i + 1) fuel (some (i, 1))
      | some (st, len) => advisableRunsGo alloc rel (i + 1) fuel (some (st, len + 1))
    else
      match acc with
      | none => advisableRunsGo alloc rel (i + 1) fuel none
      | some r => r :: advisableRunsGo alloc rel (i + 1) fuel none

/-- Maximal runs of free not-yet-released pages of the tracker. -/
def advisableRuns (t : TrackerBits) : List (Nat × Nat) :=
  advisableRunsGo t.allocated t.released 0 kPagesPerHugePage none

/-- Modelled from the spec: PageTracker ReleaseFree advises the OS for
each maximal free not-yet-released run and marks those pages released.
Returns (advised ranges in page order, new tracker). -/
def trackerReleaseFree (t : TrackerBits) : List (Nat × Nat) × TrackerBits :=
  let full := 2 ^ kPagesPerHugePage - 1
  let adv := full - (full &&& (t.allocated ||| t.released))
  (advisableRuns t, ⟨t.allocated, t.released ||| adv⟩)

/-- Modelled from the spec: PageTracker MaybeRelease, called while the
range is still allocated and about to be freed: when the huge page
already has released pages the range is advised away and marked released,
otherwise nothing happens.  Returns (advised ranges, new tracker). -/
def trackerMaybeRelease (t : TrackerBits) (i n : Nat) : List (Nat × Nat) × TrackerBits :=
  if t.released ≠ 0 then
    ([(i, n)], ⟨t.allocated, t.released ||| rangeMask i n⟩)
  else
    ([], t)

/-- Number of set bits, with explicit fuel. -/
def popCountGo : Nat → Nat → Nat
  | _, 0 => 0
  | x, fuel + 1 => x % 2 + popCountGo (x / 2) fuel

/-- Number of released pages in the tracker. -/
def releasedCount (t : TrackerBits) : Nat := popCountGo t.released kPagesPerHugePage

/-- K of the PageTrackerTest.Releasing scenario: a quarter huge page. -/
def relK : Nat := kPagesPerHugePage / 4

/-- Releasing scenario, first allocation: a1 of K-3 pages. -/
def relGet1 : Nat × TrackerBits := (trackerGet freshTracker (relK - 3)).getD (0, freshTracker)

/-- Releasing scenario, second allocation: a2 of K pages. -/
def relGet2 : Nat × TrackerBits := (trackerGet relGet1.2 relK).getD (0, freshTracker)

/-- Releasing scenario, third allocation: a3 of K+1 pages. -/
def relGet3 : Nat × TrackerBits := (trackerGet relGet2.2 (relK + 1)).getD (0, freshTracker)

/-- Releasing scenario, fourth allocation: a4 of K+2 pages. -/
def relGet4 : Nat × TrackerBits := (trackerGet relGet3.2 (relK + 2)).getD (0, freshTracker)

/-- Releasing scenario: the tracker after freeing a2 and a4. -/
def relAfterFrees : TrackerBits :=
  trackerPut (trackerPut relGet4.2 relGet2.1 relK) relGet4.1 (relK + 2)

/-- Releasing scenario: the ReleaseFree call on the half-freed tracker. -/
def relAdvised : List (Nat × Nat) × TrackerBits := trackerReleaseFree relAfterFrees

/-- Releasing scenario: the MaybeRelease call on a1 before freeing it. -/
def relMaybe : List (Nat × Nat) × TrackerBits :=
  trackerMaybeRelease relAdvised.2 relGet1.1 (relK - 3)

/-! ## Arena (spec section 4.1, Arena.Stats test)

arena.cc is not part of the snapshot.  Alignment-1 allocations as used by
the Arena.Stats test are modelled; chunk size is a parameter. -/

/-- Modelled from the spec: arena counters.  unallocated is the space left
in the current chunk, unavailable the space lost when a chunk is dropped
for a fresh one, blocks the number of chunks obtained from the OS. -/
structure ArenaM where
  unallocated : Nat
  allocated : Nat
  unavailable : Nat
  blocks : Nat
deriving DecidableEq, Repr

/-- A fresh arena has no chunk yet. -/
def ArenaM.init : ArenaM := ⟨0, 0, 0, 0⟩

/-- Modelled from the spec: Alloc with alignment 1.  If the request fits
in the current chunk it is carved there; otherwise the remaining tail of
the current chunk becomes unavailable and a fresh chunk of chunkSize (or
the request size, when larger) is obtained from the OS mapper, which in
this model always succeeds (OOM is fatal, never returned). -/
def ArenaM.alloc1 (a : ArenaM) (size chunkSize : Nat) : ArenaM :=
  if size ≤ a.unallocated then
    { a with unallocated := a.unallocated - size, allocated := a.allocated + size }
  else
    { unallocated := max chunkSize size - size,
      allocated := a.allocated + size,
      unavailable := a.unavailable + a.unallocated,
      blocks := a.blocks + 1 }

/-! ## Per-CPU cache (spec section 4.6, cpu_cache_test.cc)

cpu_cache.h is not part of the snapshot.  The model keeps, per CPU, the
byte counters the tests observe: capacity, allocated (capacity assigned to
size classes), unallocated (capacity not yet assigned), used (bytes of
cached objects), the cumulative miss counter with the snapshot taken at
the last reclaim interval, the reclaim count, and the spec flag that a CPU
reclaimed in the previous interval is skipped in the next. -/

/-- Modelled from the spec: per-CPU slab counters. -/
structure CpuSlot where
  capacity : Nat
  allocated : Nat
  unallocated : Nat
  used : Nat
  totalMisses : Nat
  snapMisses : Nat
  reclaims : Nat
  recentlyReclaimed : Bool
deriving DecidableEq, Repr

/-- Activation state of one CPU: the full per-CPU limit as capacity, none
of it yet assigned to classes. -/
def initSlot (limit : Nat) : CpuSlot := ⟨limit, 0, limit, 0, 0, 0, 0, false⟩

/-- Activation state of the whole cache: every CPU at the limit. -/
def initCache (numCpus limit : Nat) : List CpuSlot := List.replicate numCpus (initSlot limit)

/-- Assign x bytes of spare capacity to size classes of this CPU. -/
def growOne (c : CpuSlot) (x : Nat) : CpuSlot :=
  { c with allocated := c.allocated + x, unallocated := c.unallocated - x }

/-- Return x bytes of class capacity to the spare pool of this CPU. -/
def shrinkOne (c : CpuSlot) (x : Nat) : CpuSlot :=
  { c with allocated := c.allocated - x, unallocated := c.unallocated + x }

/-- Shuffle donor: x bytes of spare capacity leave this CPU. -/
def stealCap (c : CpuSlot) (x : Nat) : CpuSlot :=
  { c with capacity := c.capacity - x, unallocated := c.unallocated - x }

/-- Shuffle recipient: x bytes of capacity arrive as spare capacity. -/
def grantCap (c : CpuSlot) (x : Nat) : CpuSlot :=
  { c with capacity := c.capacity + x, unallocated := c.unallocated + x }

/-- Ordinary traffic on one CPU: fast-path hits and slow-path misses move
used bytes and advance the cumulative miss counter. -/
def workOne (c : CpuSlot) (u t : Nat) : CpuSlot :=
  { c with used := u, totalMisses := t }

/-- Drain one CPU (Reclaim): used bytes go to the transfer caches, the
capacity is kept, the reclaim count advances and the CPU is marked as
reclaimed for the next interval. -/
def drainOne (c : CpuSlot) : CpuSlot :=
  { c with used := 0, reclaims := c.reclaims + 1,
           snapMisses := c.totalMisses, recentlyReclaimed := true }

/-- Modelled from the spec: the per-CPU reclaim decision for one CPU in
TryReclaimingCaches.  The interval miss count is read and the snapshot
advanced; a CPU reclaimed in the previous interval is skipped this
interval; otherwise a CPU with zero interval misses and non-zero used
bytes is fully drained with its capacity kept and its reclaim count
incremented. -/
def reclaimOne (c : CpuSlot) : CpuSlot :=
  let interval := c.totalMisses - c.snapMisses
  if c.recentlyReclaimed then
    { c with snapMisses := c.totalMisses, recentlyReclaimed := false }
  else if interval = 0 ∧ 0 < c.used then
    drainOne c
  else
    { c with snapMisses := c.totalMisses }

/-- Modelled from the spec: TryReclaimingCaches visits every CPU. -/
def tryReclaimingCaches (l : List CpuSlot) : List CpuSlot := l.map reclaimOne

/-- Modelled from the spec: the operations of an active per-CPU cache that
touch the observable counters.  work covers fast paths and miss recording
on one CPU; growClass and shrinkClass move capacity between the class pool
and the spare pool of one CPU; shuffleMove is the cross-CPU capacity steal
of ShuffleCpuCaches; reclaimPass is TryReclaimingCaches; reclaimCpu is a
direct Reclaim of one CPU (drain, capacity kept). -/
inductive CpuStep : List CpuSlot → List CpuSlot → Prop
  | work (l : List CpuSlot) (i : Nat) (hi : i < l.length) (u t : Nat) :
      CpuStep l (l.set i (workOne (l.get ⟨i, hi⟩) u t))
  | growClass (l : List CpuSlot) (i : Nat) (hi : i < l.length) (x : Nat)
      (hx : x ≤ (l.get ⟨i, hi⟩).unallocated) :
      CpuStep l (l.set i (growOne (l.get ⟨i, hi⟩) x))
  | shrinkClass (l : List CpuSlot) (i : Nat) (hi : i < l.length) (x : Nat)
      (hx : x ≤ (l.get ⟨i, hi⟩).allocated) :
      CpuStep l (l.set i (shrinkOne (l.get ⟨i, hi⟩) x))
  | shuffleMove (l : List CpuSlot) (i j : Nat) (hi : i < l.length) (hj : j < l.length)
      (hij : i ≠ j) (x : Nat) (hx : x ≤ (l.get ⟨i, hi⟩).unallocated) :
      CpuStep l ((l.set i (stealCap (l.get ⟨i, hi⟩) x)).set j (grantCap (l.get ⟨j, hj⟩) x))
  | reclaimPass (l : List CpuSlot) : CpuStep l (tryReclaimingCaches l)
  | reclaimCpu (l : List CpuSlot) (i : Nat) (hi : i < l.length) :
      CpuStep l (l.set i (drainOne (l.get ⟨i, hi⟩)))

/-- States of an active cache of numCpus CPUs with per-CPU limit bytes:
reachable from activation by shuffle, reclaim and ordinary traffic. -/
def CacheReachable (numCpus limit : Nat) (s : List CpuSlot) : Prop :=
  Relation.ReflTransGen CpuStep (initCache numCpus limit) s

/-- Total capacity across CPUs. -/
def sumCap (l : List CpuSlot) : Nat := (l.map CpuSlot.capacity).sum

/-- Per-CPU capacity accounting: assigned plus spare equals capacity. -/
def AccountingOk (l : List CpuSlot) : Prop :=
  ∀ c ∈ l, c.allocated + c.unallocated = c.capacity

/-! ## Theorems -/

theorem sum_map_set (f : CpuSlot → Nat) :
    ∀ (l : List CpuSlot) (i : Nat) (a : CpuSlot) (hi : i < l.length),
      ((l.set i a).map f).sum + f (l.get ⟨i, hi⟩) = (l.map f).sum + f a
  | [], i, a, hi => by simp at hi
  | c :: rest, 0, a, _ => by
      simp only [List.set, List.map, List.sum_cons, List.get]
      omega
  | c :: rest, i + 1, a, hi => by
      simp only [List.set, List.map, List.sum_cons, List.get]
      have := sum_map_set f rest i a (by simpa using hi)
      omega

theorem reclaimOne_capacity (c : CpuSlot) : (reclaimOne c).capacity = c.capacity := by
  by_cases h1 : c.recentlyReclaimed <;>
    by_cases h2 : c.totalMisses - c.snapMisses = 0 ∧ 0 < c.used <;>
      simp [reclaimOne, drainOne, h1, h2]

theorem reclaimOne_allocated (c : CpuSlot) : (reclaimOne c).allocated = c.allocated := by
  by_cases h1 : c.recentlyReclaimed <;>
    by_cases h2 : c.totalMisses - c.snapMisses = 0 ∧ 0 < c.used <;>
      simp [reclaimOne, drainOne, h1, h2]

theorem reclaimOne_unallocated (c : CpuSlot) : (reclaimOne c).unallocated = c.unallocated := by
  by_cases h1 : c.recentlyReclaimed <;>
    by_cases h2 : c.totalMisses - c.snapMisses = 0 ∧ 0 < c.used <;>
      simp [reclaimOne, drainOne, h1, h2]

theorem cpuStep_inv (l l2 : List CpuSlot) (h : CpuStep l l2) (hacc : AccountingOk l) :
    AccountingOk l2 ∧ sumCap l2 = sumCap l ∧ l2.length = l.length := by
  cases h with
  | work i hi u t =>
      have hc := hacc (l.get ⟨i, hi⟩) (l.get_mem i hi)
      refine ⟨?_, ?_, by simp⟩
      · intro c hc2
        rcases List.mem_or_eq_of_mem_set hc2 with h2 | h2
        · exact hacc c h2
        · subst h2; simpa [workOne] using hc
      · have hs := sum_map_set CpuSlot.capacity l i (workOne (l.get ⟨i, hi⟩) u t) hi
        have hcap : (workOne (l.get ⟨i, hi⟩) u t).capacity = (l.get ⟨i, hi⟩).capacity := rfl
        unfold sumCap
        omega
  | growClass i hi x hx =>
      have hc := hacc (l.get ⟨i, hi⟩) (l.get_mem i hi)
      refine ⟨?_, ?_, by simp⟩
      · intro c hc2
        rcases List.mem_or_eq_of_mem_set hc2 with h2 | h2
        · exact hacc c h2
        · subst h2; simp only [growOne]; omega
      · have hs := sum_map_set CpuSlot.capacity l i (growOne (l.get ⟨i, hi⟩) x) hi
        have hcap : (growOne (l.get ⟨i, hi⟩) x).capacity = (l.get ⟨i, hi⟩).capacity := rfl
        unfold sumCap
        omega
  | shrinkClass i hi x hx =>
      have hc := hacc (l.get ⟨i, hi⟩) (l.get_mem i hi)
      refine ⟨?_, ?_, by simp⟩
      · intro c hc2
        rcases List.mem_or_eq_of_mem_set hc2 with h2 | h2
        · exact hacc c h2
        · subst h2; simp only [shrinkOne]; omega
      · have hs := sum_map_set CpuSlot.capacity l i (shrinkOne (l.get ⟨i, hi⟩) x) hi
        have hcap : (shrinkOne (l.get ⟨i, hi⟩) x).capacity = (l.get ⟨i, hi⟩).capacity := rfl
        unfold sumCap
        omega
  | shuffleMove i j hi hj hij x hx =>
      have hci := hacc (l.get ⟨i, hi⟩) (l.get_mem i hi)
      have hcj := hacc (l.get ⟨j, hj⟩) (l.get_mem j hj)
      have hxc : x ≤ (l.get ⟨i, hi⟩).capacity := by omega
      refine ⟨?_, ?_, by simp⟩
      · intro c hc2
        rcases List.mem_or_eq_of_mem_set hc2 with h2 | h2
        · rcases List.mem_or_eq_of_mem_set h2 with h3 | h3
          · exact hacc c h3
          · subst h3; simp only [stealCap]; omega
        · subst h2; simp only [grantCap]; omega
      · have hj2 : j < (l.set i (stealCap (l.get ⟨i, hi⟩) x)).length := by
          simpa using hj
        have h2 := sum_map_set CpuSlot.capacity (l.set i (stealCap (l.get ⟨i, hi⟩) x)) j
          (grantCap (l.get ⟨j, hj⟩) x) hj2
        have h1 := sum_map_set CpuSlot.capacity l i (stealCap (l.get ⟨i, hi⟩) x) hi
        have hgj : (l.set i (stealCap (l.get ⟨i, hi⟩) x)).get ⟨j, hj2⟩ = l.get ⟨j, hj⟩ := by
          simp [List.get_eq_getElem, List.getElem_set_ne, hij]
        rw [hgj] at h2
        have e1 : (stealCap (l.get ⟨i, hi⟩) x).capacity = (l.get ⟨i, hi⟩).capacity - x := rfl
        have e2 : (grantCap (l.get ⟨j, hj⟩) x).capacity = (l.get ⟨j, hj⟩).capacity + x := rfl
        unfold sumCap
        omega
  | reclaimPass =>
      refine ⟨?_, ?_, by simp [tryReclaimingCaches]⟩
      · intro c hc2
        rcases List.mem_map.mp hc2 with ⟨c0, hc0, rfl⟩
        rw [reclaimOne_capacity, reclaimOne_allocated, reclaimOne_unallocated]
        exact hacc c0 hc0
      · unfold sumCap tryReclaimingCaches
        rw [List.map_map]
        congr 1
        exact List.map_congr_left (fun c _ => reclaimOne_capacity c)
  | reclaimCpu i hi =>
      have hc := hacc (l.get ⟨i, hi⟩) (l.get_mem i hi)
      refine ⟨?_, ?_, by simp⟩
      · intro c hc2
        rcases List.mem_or_eq_of_mem_set hc2 with h2 | h2
        · exact hacc c h2
        · subst h2; simpa [drainOne] using hc
      · have hs := sum_map_set CpuSlot.capacity l i (drainOne (l.get ⟨i, hi⟩)) hi
        have hcap : (drainOne (l.get ⟨i, hi⟩)).capacity = (l.get ⟨i, hi⟩).capacity := rfl
        unfold sumCap
        omega

theorem cacheReachable_inv (numCpus limit : Nat) (s : List CpuSlot)
    (h : CacheReachable numCpus limit s) :
    AccountingOk s ∧ sumCap s = numCpus * limit ∧ s.length = numCpus := by
  induction h with
  | refl =>
      refine ⟨?_, ?_, by simp [initCache]⟩
      · intro c hc
        have := List.eq_of_mem_replicate hc
        subst this
        simp [initSlot]
      · unfold sumCap initCache
        simp [initSlot, Nat.mul_comm]
  | tail _ hstep ih =>
      obtain ⟨hacc, hsum, hlen⟩ := ih
      obtain ⟨hacc2, hsum2, hlen2⟩ := cpuStep_inv _ _ hstep hacc
      exact ⟨hacc2, by omega, by omega⟩

/-- C1: after any sequence of shuffle, reclaim and ordinary cache
operations on an active per-CPU cache, the total capacity is conserved:
the sum over every CPU of capacity(cpu) equals numCpus times the per-CPU
cache limit; shuffling moves capacity between CPUs but never changes the
total. -/
theorem c1_total_capacity_conserved (numCpus limit : Nat) (s : List CpuSlot)
    (h : CacheReachable numCpus limit s) : sumCap s = numCpus * limit :=
  (cacheReachable_inv numCpus limit s h).2.1

/-- C1 witness: one shuffle step moving 4 bytes of capacity from CPU 0 to
CPU 1 of a two-CPU cache with limit 10 keeps the total at 20. -/
theorem c1_total_capacity_conserved_witness :
    sumCap [⟨6, 0, 6, 0, 0, 0, 0, false⟩, ⟨14, 0, 14, 0, 0, 0, 0, false⟩] = 2 * 10 :=
  c1_total_capacity_conserved 2 10 _
    (Relation.ReflTransGen.single
      (CpuStep.shuffleMove (initCache 2 10) 0 1 (by decide) (by decide) (by decide) 4 (by decide)))

/-- C2: for every CPU, at every observation point of an active per-CPU
cache, between arbitrary allocate, deallocate, shuffle and reclaim
operations, the bytes of capacity assigned to size classes plus the
unassigned bytes equal the capacity of the CPU. -/
theorem c2_capacity_accounting (numCpus limit : Nat) (s : List CpuSlot)
    (h : CacheReachable numCpus limit s) :
    ∀ c ∈ s, c.allocated + c.unallocated = c.capacity :=
  (cacheReachable_inv numCpus limit s h).1

/-- C2 witness: after one class-capacity growth step of 4 bytes on a
one-CPU cache with limit 10 the accounting identity holds. -/
theorem c2_capacity_accounting_witness :
    CpuSlot.allocated ⟨10, 4, 6, 0, 0, 0, 0, false⟩ +
      CpuSlot.unallocated ⟨10, 4, 6, 0, 0, 0, 0, false⟩ =
      CpuSlot.capacity ⟨10, 4, 6, 0, 0, 0, 0, false⟩ :=
  c2_capacity_accounting 1 10 _
    (Relation.ReflTransGen.single
      (CpuStep.growClass (initCache 1 10) 0 (by decide) 4 (by decide)))
    ⟨10, 4, 6, 0, 0, 0, 0, false⟩ (by decide)

/-- C8: a reclaim pass fully drains, with capacity kept and the reclaim
count incremented by one, exactly those CPUs that recorded zero cache
misses over the last interval, have non-zero used bytes and were not
reclaimed in the previous interval; a CPU reclaimed in one pass is not
reclaimed again by the immediately following pass. -/
theorem c8_reclaim_drains_idle_cpus (l : List CpuSlot) (i : Nat)
    (hi : i < l.length) (hi2 : i < (tryReclaimingCaches l).length)
    (hi3 : i < (tryReclaimingCaches (tryReclaimingCaches l)).length) :
    ((tryReclaimingCaches l)[i].reclaims = l[i].reclaims + 1 ↔
       (l[i].recentlyReclaimed = false ∧ l[i].totalMisses - l[i].snapMisses = 0 ∧
        0 < l[i].used)) ∧
    (l[i].recentlyReclaimed = false → l[i].totalMisses - l[i].snapMisses = 0 →
       0 < l[i].used →
       (tryReclaimingCaches l)[i].used = 0 ∧
       (tryReclaimingCaches l)[i].capacity = l[i].capacity ∧
       (tryReclaimingCaches l)[i].recentlyReclaimed = true) ∧
    (l[i].recentlyReclaimed = true →
       (tryReclaimingCaches l)[i].used = l[i].used ∧
       (tryReclaimingCaches l)[i].reclaims = l[i].reclaims) ∧
    ((tryReclaimingCaches l)[i].recentlyReclaimed = true →
       (tryReclaimingCaches (tryReclaimingCaches l))[i].reclaims =
         (tryReclaimingCaches l)[i].reclaims) := by
  have hmap : (tryReclaimingCaches l)[i] = reclaimOne l[i] := by
    simp [tryReclaimingCaches]
  have hmap2 : (tryReclaimingCaches (tryReclaimingCaches l))[i] =
      reclaimOne (reclaimOne l[i]) := by
    simp [tryReclaimingCaches]
  rw [hmap, hmap2]
  by_cases h1 : l[i].recentlyReclaimed <;>
    by_cases h2 : l[i].totalMisses - l[i].snapMisses = 0 ∧ 0 < l[i].used <;>
      simp [reclaimOne, drainOne, h1, h2] <;> omega

/-- C8 witness: a one-CPU cache whose CPU saw its three misses before the
last interval snapshot and holds five used bytes is drained by the pass. -/
theorem c8_reclaim_drains_idle_cpus_witness :
    (tryReclaimingCaches [⟨10, 2, 8, 5, 3, 3, 0, false⟩])[0].used = 0 ∧
    (tryReclaimingCaches [⟨10, 2, 8, 5, 3, 3, 0, false⟩])[0].capacity = 10 ∧
    (tryReclaimingCaches [⟨10, 2, 8, 5, 3, 3, 0, false⟩])[0].recentlyReclaimed = true :=
  (c8_reclaim_drains_idle_cpus [⟨10, 2, 8, 5, 3, 3, 0, false⟩] 0
    (by decide) (by decide) (by decide)).2.1 rfl (by decide) (by decide)

/-- C3 counterexample: starting from an empty ring-buffer transfer cache
with batch size 32, two batch inserts followed by two consecutive
TryPlunder calls with no traffic in between: the first plunder removes
nothing, the second removes all 64 objects, so the second of two
consecutive plunder calls is not a no-op. -/
theorem c3_counterexample :
    ((((RingTC.mk 0 1024 32 0).insert 32).1.insert 32).1.tryPlunder.1.tryPlunder).2 = 64 ∧
    ((((RingTC.mk 0 1024 32 0).insert 32).1.insert 32).1.tryPlunder.1.tryPlunder).1.used ≠
      ((((RingTC.mk 0 1024 32 0).insert 32).1.insert 32).1.tryPlunder).1.used := by
  decide

/-- C3 (amended): each TryPlunder resets the low-water mark to the object
count it leaves behind, so the second of two consecutive plunder calls
with no intervening traffic removes every object remaining after the
first, leaving the cache empty; it is a no-op only when the cache is
already empty after the first call; a third consecutive plunder call is a
no-op. -/
theorem c3_plunder_consecutive (c : RingTC) :
    ((c.tryPlunder.1.tryPlunder).1.used = 0) ∧
    ((c.tryPlunder.1.tryPlunder).2 = c.tryPlunder.1.used) ∧
    ((c.tryPlunder.1.tryPlunder).1.tryPlunder = ((c.tryPlunder.1.tryPlunder).1, 0)) := by
  obtain ⟨u, cap, b, lw⟩ := c
  simp [RingTC.tryPlunder]

/-- C4 counterexample: the classic transfer-cache variant with batch size
2 and ample capacity rejects a one-pointer batch wholesale to the central
free list even though capacity is sufficient for it, contradicting that
the whole batch is rejected only when capacity is insufficient. -/
theorem c4_counterexample :
    (XferCache.mk 0 4 2 false).used + 1 ≤ (XferCache.mk 0 4 2 false).capacity ∧
    (insertRange (XferCache.mk 0 4 2 false) 1).2.1 = 0 ∧
    (insertRange (XferCache.mk 0 4 2 false) 1).2.2 = 1 := by
  decide

/-- C4 (amended): insert_range inserts all pointers of the batch whenever
capacity is sufficient and the batch is a full batch or the variant is
flexible; the classic variant rejects the entire batch to the central
free list when the batch is partial or capacity is insufficient, while
the flexible variant absorbs what fits and forwards the remainder;
remove_range serves a partial batch from the cache only in the flexible
variant, the classic variant serves full-batch requests it can satisfy
and forwards everything else whole. -/
theorem c4_insert_remove_variants (c : XferCache) (m n : Nat) :
    (m = c.batchSize → c.used + m ≤ c.capacity →
       (insertRange c m).2.1 = m ∧ (insertRange c m).2.2 = 0) ∧
    (c.flexible = true → c.used + m ≤ c.capacity →
       (insertRange c m).2.1 = m ∧ (insertRange c m).2.2 = 0) ∧
    (c.flexible = true →
       (insertRange c m).2.1 = min m (c.capacity - c.used) ∧
       (insertRange c m).2.2 = m - min m (c.capacity - c.used)) ∧
    (c.flexible = false → (m ≠ c.batchSize ∨ c.capacity < c.used + m) →
       (insertRange c m).2.1 = 0 ∧ (insertRange c m).2.2 = m) ∧
    (c.flexible = false →
       (removeRange c n).2.1 = n ∨ (removeRange c n).2.1 = 0) ∧
    (c.flexible = true → 0 < c.used →
       (removeRange c n).2.1 = min n c.used ∧ (removeRange c n).2.2 = 0) := by
  refine ⟨?_, ?_, ?_, ?_, ?_, ?_⟩
  · intro hm hcap
    subst hm
    by_cases hf : c.flexible <;> simp [insertRange, hf, hcap] <;> omega
  · intro hf hcap
    simp [insertRange, hf]
    omega
  · intro hf
    simp [insertRange, hf]
  · intro hf hrej
    have : ¬ (m = c.batchSize ∧ c.used + m ≤ c.capacity) := by
      rcases hrej with h | h
      · exact fun hc => h hc.1
      · exact fun hc => by omega
    simp [insertRange, hf, this]
  · intro hf
    by_cases hr : n = c.batchSize ∧ n ≤ c.used
    · obtain ⟨hn, hle⟩ := hr
      subst hn
      left
      simp [removeRange, hf, hle]
    · right
      simp [removeRange, hf, hr]
  · intro hf hu
    simp [removeRange, hf, hu]

/-- C4 amended witness: a flexible cache of capacity 4 and batch size 2
holding 3 objects absorbs one pointer of a two-pointer batch and forwards
one, and serves a partial remove of two from three used objects. -/
theorem c4_insert_remove_variants_witness :
    (insertRange (XferCache.mk 3 4 2 true) 2).2.1 = min 2 (4 - 3) ∧
    (removeRange (XferCache.mk 3 4 2 true) 2).2.1 = min 2 3 :=
  ⟨((c4_insert_remove_variants (XferCache.mk 3 4 2 true) 2 2).2.2.1 rfl).1,
   ((c4_insert_remove_variants (XferCache.mk 3 4 2 true) 2 2).2.2.2.2.2 rfl (by decide)).1⟩

/-- C5 counterexample: the metadata-residency adjustment of ExtractStats
is not computed with saturating subtraction: on the torn snapshot
metadata_bytes = 0, pagemap_bytes = 1, resident_bytes = 0 the reported
value wraps to 2^64 - 1 instead of saturating to 0. -/
theorem c5_counterexample :
    metadataPagemapResidenceAdjust 0 1 0 ≠ 0 ∧
    metadataPagemapResidenceAdjust 0 1 0 = 2 ^ 64 - 1 := by
  decide

/-- C5 (amended): the derived statistics bytes-in-use-by-app,
physical-memory-used, required-bytes and heap-size are computed with the
saturating subtraction StatSub and report 0 instead of wrapping whenever
the subtrahend exceeds the minuend, for every pair of uint64 counter
values including torn snapshots; the metadata-residency adjustments in
ExtractStats, by contrast, use plain wrapping uint64 subtraction guarded
only by debug assertions and produce a wrapped nonzero value whenever the
subtracted tier counter exceeds metadata_bytes. -/
theorem c5_saturating_subtraction (s : TCMallocStats) (m p : Nat)
    (hp : p < U64) (hmp : m < p) :
    (s.pageheap.systemBytes <
       u64sum [s.threadBytes, s.centralBytes, s.transferBytes, s.perCpuBytes,
               s.shardedTransferBytes, s.pageheap.freeBytes, s.pageheap.unmappedBytes] →
       inUseByApp s = 0) ∧
    (virtualMemoryUsed s < unmappedBytes s → physicalMemoryUsed s = 0) ∧
    (physicalMemoryUsed s < s.pageheap.freeBytes → requiredBytes s = 0) ∧
    (s.pageheap.systemBytes < s.pageheap.unmappedBytes → heapSizeBytes s.pageheap = 0) ∧
    (metadataPagemapResidenceAdjust m p 0 = U64 - (p - m) ∧
     metadataPagemapResidenceAdjust m p 0 ≠ 0) ∧
    (metadataPercpuResidenceAdjust m p 0 = U64 - (p - m) ∧
     metadataPercpuResidenceAdjust m p 0 ≠ 0) := by
  refine ⟨?_, ?_, ?_, ?_, ?_, ?_⟩
  · intro hgt
    unfold inUseByApp statSub
    rw [if_neg (by omega)]
  · intro hgt
    unfold physicalMemoryUsed statSub
    rw [if_neg (by omega)]
  · intro hgt
    unfold requiredBytes statSub
    rw [if_neg (by omega)]
  · intro hgt
    unfold heapSizeBytes statSub
    rw [if_neg (by omega)]
  · unfold metadataPagemapResidenceAdjust u64add u64subWrap U64
    simp only [U64] at hp
    constructor <;> omega
  · unfold metadataPercpuResidenceAdjust u64add u64subWrap U64
    simp only [U64] at hp
    constructor <;> omega

/-- C5 amended witness: a snapshot with one byte in the central cache and
an empty page heap reports 0 bytes in use by the app, and the residency
adjustment at metadata 3, pagemap 7 wraps to 2^64 - 4. -/
theorem c5_saturating_subtraction_witness :
    inUseByApp (TCMallocStats.mk 1 0 0 0 0 0 0 (BackingStats.mk 0 0 0)
      (ArenaStatsR.mk 0 0 0 0 0)) = 0 ∧
    metadataPagemapResidenceAdjust 3 7 0 = U64 - (7 - 3) :=
  ⟨(c5_saturating_subtraction (TCMallocStats.mk 1 0 0 0 0 0 0 (BackingStats.mk 0 0 0)
      (ArenaStatsR.mk 0 0 0 0 0)) 3 7 (by decide) (by decide)).1 (by decide),
   ((c5_saturating_subtraction (TCMallocStats.mk 1 0 0 0 0 0 0 (BackingStats.mk 0 0 0)
      (ArenaStatsR.mk 0 0 0 0 0)) 3 7 (by decide) (by decide)).2.2.2.2.1).1⟩

theorem releaseSpans_spec :
    ∀ (l : List Nat) (n : Nat),
      (releaseSpans l n).1 ≤ l.sum ∧
      min n l.sum ≤ (releaseSpans l n).1 ∧
      ((releaseSpans l n).2.1).sum = (releaseSpans l n).1 ∧
      ((releaseSpans l n).2.2).sum + (releaseSpans l n).1 = l.sum
  | [], n => by simp [releaseSpans]
  | s :: rest, n => by
      by_cases hn : n = 0
      · subst hn
        simp [releaseSpans]
      · have ih := releaseSpans_spec rest (n - s)
        simp only [releaseSpans, if_neg hn, List.sum_cons]
        omega

/-- C6: ReleaseAtLeastNPages returns the number of pages actually
released; the count is at least the target whenever the free spans hold
at least that many releasable pages, equals the total releasable amount
whenever that total is smaller than the target, never exceeds the total,
matches the pages moved to the returned list, and can exceed the target
because a span is released whole rather than fragmented. -/
theorem c6_release_at_least_n_pages (h : PageHeapFreeLists) (n : Nat) :
    ((releaseAtLeastNPages h n).1 ≤ h.normal.sum) ∧
    (n ≤ h.normal.sum → n ≤ (releaseAtLeastNPages h n).1) ∧
    (h.normal.sum < n → (releaseAtLeastNPages h n).1 = h.normal.sum) ∧
    ((releaseAtLeastNPages h n).2.returned.sum =
       h.returned.sum + (releaseAtLeastNPages h n).1) ∧
    ((releaseAtLeastNPages (PageHeapFreeLists.mk [5] []) 3).1 = 5) := by
  obtain ⟨spec1, spec2, spec3, spec4⟩ := releaseSpans_spec h.normal n
  refine ⟨?_, ?_, ?_, ?_, by decide⟩
  · simpa [releaseAtLeastNPages] using spec1
  · intro hle
    simp only [releaseAtLeastNPages]
    omega
  · intro hlt
    simp only [releaseAtLeastNPages]
    omega
  · simp only [releaseAtLeastNPages, List.sum_append]
    omega

/-- C6 witness: a page heap with free spans of 2 and 3 pages releases at
least 4 pages when asked for 4, and releases exactly 5 when asked for 9. -/
theorem c6_release_at_least_n_pages_witness :
    4 ≤ (releaseAtLeastNPages (PageHeapFreeLists.mk [2, 3] []) 4).1 ∧
    (releaseAtLeastNPages (PageHeapFreeLists.mk [2, 3] []) 9).1 = 2 + 3 :=
  ⟨(c6_release_at_least_n_pages (PageHeapFreeLists.mk [2, 3] []) 4).2.1 (by decide),
   by
     have := (c6_release_at_least_n_pages (PageHeapFreeLists.mk [2, 3] []) 9).2.2.1 (by decide)
     simpa using this⟩

set_option maxRecDepth 4000 in
/-- C7: in a fresh page tracker over 256 pages with K = 256 / 4,
allocating a1 of K-3, a2 of K, a3 of K+1 and a4 of K+2 pages succeeds and
places the four ranges back to back; after freeing a2 and a4, ReleaseFree
advises the OS exactly for the ranges of a2 and of a4 and for nothing
else; a subsequent MaybeRelease of a1 followed by freeing a1 advises
exactly the range of a1. -/
theorem c7_page_tracker_releasing :
    (trackerGet freshTracker (relK - 3)).isSome = true ∧
    (trackerGet relGet1.2 relK).isSome = true ∧
    (trackerGet relGet2.2 (relK + 1)).isSome = true ∧
    (trackerGet relGet3.2 (relK + 2)).isSome = true ∧
    relGet1.1 = 0 ∧ relGet2.1 = relK - 3 ∧
    relGet3.1 = 2 * relK - 3 ∧ relGet4.1 = 3 * relK - 2 ∧
    relAdvised.1 = [(relGet2.1, relK), (relGet4.1, relK + 2)] ∧
    relMaybe.1 = [(relGet1.1, relK - 3)] ∧
    releasedCount (trackerPut relMaybe.2 relGet1.1 (relK - 3)) =
      (relK - 3) + relK + (relK + 2) := by
  decide

/-- C9: on a fresh arena with a chunk size of at least one byte,
alloc(1, 1) succeeds and the stats then report one byte allocated in one
block with nothing unavailable; a subsequent alloc of one byte more than
remains in the chunk succeeds from a fresh chunk, after which there are
two blocks, the unused remainder of the first chunk is unavailable, and
the allocated bytes equal that remainder plus two. -/
theorem c9_arena_growth (chunk : Nat) (hc : 1 ≤ chunk) :
    (ArenaM.alloc1 ArenaM.init 1 chunk).allocated = 1 ∧
    (ArenaM.alloc1 ArenaM.init 1 chunk).blocks = 1 ∧
    (ArenaM.alloc1 ArenaM.init 1 chunk).unavailable = 0 ∧
    (ArenaM.alloc1 ArenaM.init 1 chunk).unallocated = chunk - 1 ∧
    (ArenaM.alloc1 (ArenaM.alloc1 ArenaM.init 1 chunk)
        ((ArenaM.alloc1 ArenaM.init 1 chunk).unallocated + 1) chunk).blocks = 2 ∧
    (ArenaM.alloc1 (ArenaM.alloc1 ArenaM.init 1 chunk)
        ((ArenaM.alloc1 ArenaM.init 1 chunk).unallocated + 1) chunk).unavailable =
      (ArenaM.alloc1 ArenaM.init 1 chunk).unallocated ∧
    (ArenaM.alloc1 (ArenaM.alloc1 ArenaM.init 1 chunk)
        ((ArenaM.alloc1 ArenaM.init 1 chunk).unallocated + 1) chunk).allocated =
      (ArenaM.alloc1 ArenaM.init 1 chunk).unallocated + 2 := by
  have hmax1 : max chunk 1 = chunk := Nat.max_eq_left hc
  have h1 : ArenaM.alloc1 ArenaM.init 1 chunk = ArenaM.mk (chunk - 1) 1 0 1 := by
    simp only [ArenaM.alloc1, ArenaM.init]
    rw [if_neg (by omega), hmax1]
  have hx : (chunk - 1) + 1 = chunk := by omega
  have h2 : ArenaM.alloc1 (ArenaM.mk (chunk - 1) 1 0 1) ((chunk - 1) + 1) chunk =
      ArenaM.mk 0 (1 + chunk) (chunk - 1) 2 := by
    simp only [ArenaM.alloc1]
    rw [if_neg (by omega), hx]
    simp
  rw [h1]
  simp only [h2]
  refine ⟨?_, ?_, ?_, ?_, ?_, ?_, ?_⟩ <;> first | trivial | omega

/-- C9 witness: the scenario at the 128 KiB chunk size. -/
theorem c9_arena_growth_witness :
    (ArenaM.alloc1 ArenaM.init 1 131072).allocated = 1 ∧
    (ArenaM.alloc1 ArenaM.init 1 131072).blocks = 1 ∧
    (ArenaM.alloc1 ArenaM.init 1 131072).unavailable = 0 ∧
    (ArenaM.alloc1 ArenaM.init 1 131072).unallocated = 131072 - 1 ∧
    (ArenaM.alloc1 (ArenaM.alloc1 ArenaM.init 1 131072)
        ((ArenaM.alloc1 ArenaM.init 1 131072).unallocated + 1) 131072).blocks = 2 ∧
    (ArenaM.alloc1 (ArenaM.alloc1 ArenaM.init 1 131072)
        ((ArenaM.alloc1 ArenaM.init 1 131072).unallocated + 1) 131072).unavailable =
      (ArenaM.alloc1 ArenaM.init 1 131072).unallocated ∧
    (ArenaM.alloc1 (ArenaM.alloc1 ArenaM.init 1 131072)
        ((ArenaM.alloc1 ArenaM.init 1 131072).unallocated + 1) 131072).allocated =
      (ArenaM.alloc1 ArenaM.init 1 131072).unallocated + 2 :=
  c9_arena_growth 131072 (by decide)

/-- C10: with a usage limit configured, querying
tcmalloc.hard_usage_limit_bytes returns the configured amount when the
limit is hard and SIZE_MAX when it is soft, querying
tcmalloc.desired_usage_limit_bytes returns the configured amount when the
limit is soft and SIZE_MAX when it is hard, and both queries always
succeed. -/
theorem c10_usage_limit_query (g : GlobalsState) :
    getNumericProperty g "tcmalloc.hard_usage_limit_bytes" =
      some (if g.limitIsHard then g.limitBytes else kSizeTMax) ∧
    getNumericProperty g "tcmalloc.desired_usage_limit_bytes" =
      some (if g.limitIsHard then kSizeTMax else g.limitBytes) := by
  obtain ⟨a, sn, sr, pa, an, sf, alg, ot, lb, hard, fe⟩ := g
  cases hard <;> exact ⟨rfl, rfl⟩

end Tcmalloc
